import Mathlib

/-!
Shallow embedding of `src/cuby/realtime_client.py` (class `RealtimeClient`),
the realtime streaming session manager of the Cuby voice assistant.

Modelling conventions:
* Python floats that hold monotonic timestamps and durations are modelled
  as rationals (`ℚ`); the claims only depend on ordered-field comparisons.
* A microphone frame / audio payload is carried as an abstract `String`
  (base64 encoding is a bijection on payloads, so the encode step of the
  sender and the decode step of the receiver are elided; emptiness of the
  payload is preserved by base64, which is what the guards test).
* Python `x or y` on strings/None (falsy = `None` or `""`) is `pyOr`.
* Callbacks (`on_event_text`, `on_server_error`, ...) are modelled as
  assigned; an emitted notification is an `Output` value.
-/

namespace Cuby

/-- Python's `x or y` where `x` is an optional string: `None` and `""` are
falsy and fall through to `y`. -/
def pyOr (x : Option String) (y : String) : String :=
  match x with
  | none => y
  | some s => if s = "" then y else s

/-- The mutable state of a `RealtimeClient` instance, restricted to the
fields the session pipelines and control surface read or write.
`liveThreads` is model instrumentation: it counts how many background
session threads have been launched and are still alive (the Python object
only holds the latest `self._thread`). -/
structure RealtimeClient where
  micEnabled : Bool
  speakerEnabled : Bool
  assistantSpeaking : Bool
  lastAssistantAudioTime : ℚ
  assistantCooldownSec : ℚ
  assistantTextBuffer : String
  assistantAudioBuffer : String
  vadThreshold : ℚ
  vadSilenceMs : ℤ
  stopFlag : Bool
  connected : Bool
  threadAlive : Bool
  liveThreads : Nat
  deriving DecidableEq, Repr

/-- State built by `RealtimeClient.__init__` with the default constructor
arguments (`vad_threshold=0.95`, `vad_silence_ms=1600`,
`_assistant_cooldown_sec = 0.8`). -/
def initClient : RealtimeClient :=
  { micEnabled := true
    speakerEnabled := true
    assistantSpeaking := false
    lastAssistantAudioTime := 0
    assistantCooldownSec := 4/5
    assistantTextBuffer := ""
    assistantAudioBuffer := ""
    vadThreshold := 19/20
    vadSilenceMs := 1600
    stopFlag := false
    connected := false
    threadAlive := false
    liveThreads := 0 }

/-- The per-session state resets performed at the top of
`RealtimeClient._run_session` (lines 374-378): clear the speaking flag,
both transcript buffers, and the last-assistant-audio timestamp. -/
def sessionStartReset (c : RealtimeClient) : RealtimeClient :=
  { c with
    assistantSpeaking := false
    assistantTextBuffer := ""
    assistantAudioBuffer := ""
    lastAssistantAudioTime := 0 }

/-- `RealtimeClient.start` (lines 113-119): no-op if the background thread
is alive; otherwise clear the stop flag and launch a new session thread. -/
def start (c : RealtimeClient) : RealtimeClient :=
  if c.threadAlive then c
  else
    { c with
      stopFlag := false
      threadAlive := true
      liveThreads := c.liveThreads + 1 }

/-- Notifications delivered through the client's callbacks, plus the two
audio-side effects of the receive pipeline. -/
inductive Output
  | playAudio (payload : String)
  | audioLevel (payload : String)
  | eventText (t : String)
  | userTranscript (t : String)
  | serverError (code : Option String)
  | statusNote
  deriving DecidableEq, Repr

/-- `RealtimeClient.set_vad_params` (lines 202-226): clamp and store the
supplied parameters, then emit a status notification.  (The best-effort
live `session.update` dispatch does not touch the stored fields and is
elided.) -/
def set_vad_params (c : RealtimeClient) (threshold : Option ℚ)
    (silence_ms : Option ℤ) : RealtimeClient × List Output :=
  let c1 :=
    match threshold with
    | none => c
    | some t => { c with vadThreshold := max 0 (min 1 t) }
  let c2 :=
    match silence_ms with
    | none => c1
    | some m => { c1 with vadSilenceMs := max 100 m }
  (c2, [Output.statusNote])

/-- The outbound wire event produced by one send-pipeline iteration. -/
inductive OutboundEvent
  | appendAudio (audio : String)
  deriving DecidableEq, Repr

/-- One iteration of `RealtimeClient._audio_sender` (lines 546-567), after
the frame has been read: the mic-muted, assistant-speaking and cooldown
guards in source order, then the `input_audio_buffer.append` send.
`now` is the value `time.monotonic()` returns at the cooldown check. -/
def audioSenderStep (c : RealtimeClient) (now : ℚ) (frame : String) :
    Option OutboundEvent :=
  if !c.micEnabled then none
  else if c.assistantSpeaking then none
  else if c.lastAssistantAudioTime > 0 then
    if now - c.lastAssistantAudioTime < c.assistantCooldownSec then none
    else some (OutboundEvent.appendAudio frame)
  else some (OutboundEvent.appendAudio frame)

/-- Inbound events dispatched by `RealtimeClient._audio_receiver`,
by their `type` field; optional strings model optional/falsy JSON fields. -/
inductive Event
  | audioDelta (delta : Option String)
  | audioDone
  | audioTranscriptDelta (delta : Option String)
  | audioTranscriptDone (transcript : Option String)
  | textDelta (delta : Option String)
  | textDone (text : Option String)
  | userTranscribed (transcript : Option String)
  | errorEvent (code : Option String)
  | unknown
  deriving DecidableEq, Repr

/-- One iteration of `RealtimeClient._audio_receiver` (lines 597-673):
dispatch one inbound event, returning the updated state and the emitted
notifications/effects in order.  `now` is `time.monotonic()` at the
`response.audio.delta` branch. -/
def receiverStep (c : RealtimeClient) (now : ℚ) (e : Event) :
    RealtimeClient × List Output :=
  match e with
  | .audioDelta d =>
      if !c.speakerEnabled then (c, [])
      else
        let b := pyOr d ""
        if b = "" then (c, [])
        else
          ({ c with assistantSpeaking := true, lastAssistantAudioTime := now },
           [Output.playAudio b, Output.audioLevel b])
  | .audioDone => ({ c with assistantSpeaking := false }, [])
  | .audioTranscriptDelta d =>
      let delta := pyOr d ""
      if delta = "" then (c, [])
      else ({ c with assistantAudioBuffer := c.assistantAudioBuffer ++ delta }, [])
  | .audioTranscriptDone tOpt =>
      let out :=
        if c.assistantTextBuffer = "" then
          let transcript := pyOr tOpt c.assistantAudioBuffer
          if transcript = "" then [] else [Output.eventText transcript]
        else []
      ({ c with assistantAudioBuffer := "", assistantTextBuffer := "" }, out)
  | .textDelta d =>
      let delta := pyOr d ""
      if delta = "" then (c, [])
      else ({ c with assistantTextBuffer := c.assistantTextBuffer ++ delta }, [])
  | .textDone tOpt =>
      let text := pyOr tOpt c.assistantTextBuffer
      let out := if text = "" then [] else [Output.eventText text]
      ({ c with assistantTextBuffer := "", assistantAudioBuffer := "" }, out)
  | .userTranscribed tOpt =>
      let transcript := pyOr tOpt ""
      (c, if transcript = "" then [] else [Output.userTranscript transcript])
  | .errorEvent code =>
      if code = some "conversation_already_has_active_response" then (c, [])
      else (c, [Output.serverError code])
  | .unknown => (c, [])

/-- Run the receive pipeline over a list of timestamped inbound events,
collecting the emitted outputs in order. -/
def receiverRun (c : RealtimeClient) (evs : List (ℚ × Event)) :
    RealtimeClient × List Output :=
  match evs with
  | [] => (c, [])
  | (t, e) :: rest =>
      let r1 := receiverStep c t e
      let r2 := receiverRun r1.1 rest
      (r2.1, r1.2 ++ r2.2)

/-! ### `_run_session` as an action trace (for the teardown-ordering claim) -/

/-- How the `asyncio.gather(sender, receiver)` call inside the `async with`
block of `_run_session` ended: both pipelines returned, one raised, or they
exited because a stop was requested. -/
inductive BodyEnd
  | normal
  | errored
  | stopped
  deriving DecidableEq, Repr

/-- Observable actions of one `_run_session` call, in source order. -/
inductive SessAction
  | statusConnecting
  | resetSessionState
  | openAudioStreams
  | errorAudioInit
  | releaseInStream
  | releaseOutStream
  | statusInitError
  | openConnection
  | wsStateTrue
  | statusConnected
  | sendSessionUpdateAct
  | pipelinesFinished
  | pipelinesErrored
  | pipelinesStopped
  | closeConnection
  | wsStateFalse
  | statusStreamsClosed
  deriving DecidableEq, Repr

/-- The scenario parameters that select a control-flow path through
`_run_session`: stop already requested at entry, whether opening the audio
streams succeeds, whether `ws_connect` succeeds, and how the pipeline body
ends. -/
structure SessionScenario where
  stopAtEntry : Bool
  audioOpenOk : Bool
  connectOk : Bool
  bodyEnd : BodyEnd
  deriving DecidableEq, Repr

/-- Trace action recording how the pipeline body ended. -/
def bodyEndAction : BodyEnd → SessAction
  | .normal => .pipelinesFinished
  | .errored => .pipelinesErrored
  | .stopped => .pipelinesStopped

/-- Action trace of `RealtimeClient._run_session` (lines 366-488).
The `async with ws_connect(...)` context manager closes the WebSocket when
its block exits (normally or by exception); only then does the `finally`
block run, which reports the disconnected state and stops/closes the two
audio streams (input first, then output). On the audio-open failure path
the streams are released and the function returns with no connection made.
If `ws_connect` itself raises, no connection was opened and the `finally`
block still releases the streams. -/
def runSessionTrace (sc : SessionScenario) : List SessAction :=
  if sc.stopAtEntry then []
  else
    [SessAction.statusConnecting, SessAction.resetSessionState] ++
    if !sc.audioOpenOk then
      [SessAction.errorAudioInit, SessAction.releaseInStream,
       SessAction.releaseOutStream, SessAction.statusInitError]
    else
      [SessAction.openAudioStreams] ++
      (if !sc.connectOk then ([] : List SessAction)
       else
        [SessAction.openConnection, SessAction.wsStateTrue,
         SessAction.statusConnected, SessAction.sendSessionUpdateAct,
         bodyEndAction sc.bodyEnd, SessAction.closeConnection]) ++
      [SessAction.wsStateFalse, SessAction.releaseInStream,
       SessAction.releaseOutStream, SessAction.statusStreamsClosed]

/-! ### `_reconnect_loop` backoff (for the retry-classification claim) -/

/-- How one `await self._run_session()` call ended, as classified by the
`try/except/else` in `_reconnect_loop` (lines 341-364). -/
inductive SessionResult
  | closedByPeer
  | failed
  | cleanEnd
  deriving DecidableEq, Repr

/-- The interruptible polling wait `for _ in range(n): if stop: break;
await asyncio.sleep(0.1)`, started at poll index `i` with `fuel`
iterations left: returns the list of sleep durations actually performed.
`stopAt j` tells whether the stop flag is observed set at poll `j`. -/
def waitSleepsGo (stopAt : Nat → Bool) : Nat → Nat → List ℚ
  | _, 0 => []
  | i, fuel + 1 =>
      if stopAt i then [] else (1/10 : ℚ) :: waitSleepsGo stopAt (i + 1) fuel

/-- The sleeps performed by `for _ in range(n): if stop: break; await
asyncio.sleep(0.1)`. -/
def waitSleeps (n : Nat) (stopAt : Nat → Bool) : List ℚ :=
  waitSleepsGo stopAt 0 n

/-- The wait performed by one iteration of `_reconnect_loop` after a
session ends with result `r`.  `stopSet` is the stop flag at the check
performed right after the session ends; `stopAt` gives the flag at each
subsequent poll of an interruptible wait. -/
def reconnectBackoff (r : SessionResult) (stopSet : Bool)
    (stopAt : Nat → Bool) : List ℚ :=
  match r with
  | .closedByPeer => if stopSet then [] else waitSleeps 30 stopAt
  | .failed => if stopSet then [] else waitSleeps 50 stopAt
  | .cleanEnd => if stopSet then [] else [(3/10 : ℚ)]

/-- A stop-flag history that never observes the flag set. -/
def neverStop : Nat → Bool := fun _ => false

/-! ## Claim theorems -/

/-- C1: in any send-pipeline iteration, if the assistant-speaking flag is
set when the frame is examined, no `input_audio_buffer.append` event is
sent for that frame, regardless of the mic-enabled flag. -/
theorem claim1_no_send_while_assistant_speaking (c : RealtimeClient)
    (now : ℚ) (frame : String) (h : c.assistantSpeaking = true) :
    audioSenderStep c now frame = none := by
  cases hm : c.micEnabled <;> simp [audioSenderStep, hm, h]

/-- Witness for C1 at a concrete state with the flag set and the mic on. -/
theorem claim1_no_send_while_assistant_speaking_witness :
    audioSenderStep { initClient with assistantSpeaking := true } 1 "fr" =
      none :=
  claim1_no_send_while_assistant_speaking
    { initClient with assistantSpeaking := true } 1 "fr" rfl

/-- C4: `set_vad_params` stores a supplied threshold clamped into `[0,1]`
and a supplied silence window clamped to at least 100; in particular
threshold `5/2` stores `1` and silence `50` stores `100`, and the stored
threshold always lies in `[0,1]` and the stored silence is at least 100. -/
theorem claim4_vad_params_clamped (c : RealtimeClient) (t : ℚ) (m : ℤ) :
    ((set_vad_params c (some t) (some m)).1.vadThreshold = max 0 (min 1 t)) ∧
    ((set_vad_params c (some t) (some m)).1.vadSilenceMs = max 100 m) ∧
    ((set_vad_params c (some t) none).1.vadThreshold = max 0 (min 1 t)) ∧
    ((set_vad_params c none (some m)).1.vadSilenceMs = max 100 m) ∧
    (0 ≤ (set_vad_params c (some t) (some m)).1.vadThreshold) ∧
    ((set_vad_params c (some t) (some m)).1.vadThreshold ≤ 1) ∧
    (100 ≤ (set_vad_params c (some t) (some m)).1.vadSilenceMs) ∧
    ((set_vad_params c (some (5/2 : ℚ)) none).1.vadThreshold = 1) ∧
    ((set_vad_params c none (some 50)).1.vadSilenceMs = 100) ∧
    ((set_vad_params c none none).1 = c) := by
  refine ⟨rfl, rfl, rfl, rfl, le_max_left 0 _, max_le (by norm_num)
    (min_le_left 1 t), le_max_left 100 m, ?_, ?_, rfl⟩
  · show max 0 (min 1 (5/2 : ℚ)) = 1
    rw [min_eq_left (by norm_num : (1 : ℚ) ≤ 5/2),
      max_eq_right (by norm_num : (0 : ℚ) ≤ 1)]
  · show max (100 : ℤ) 50 = 100
    decide

/-- C8: starting an already-running client is a no-op, so two `start`
calls in a row from a fresh client leave exactly one live session thread
(the second call changes nothing). -/
theorem claim8_start_idempotent (c : RealtimeClient)
    (h1 : c.threadAlive = false) (h2 : c.liveThreads = 0) :
    start (start c) = start c ∧ (start c).threadAlive = true ∧
    (start c).liveThreads = 1 ∧ (start (start c)).liveThreads = 1 := by
  simp [start, h1, h2]

/-- Witness for C8 at the freshly constructed client. -/
theorem claim8_start_idempotent_witness :
    start (start initClient) = start initClient ∧
    (start (start initClient)).liveThreads = 1 := by
  have h := claim8_start_idempotent initClient rfl rfl
  exact ⟨h.1, h.2.2.2⟩

/-- C7: an inbound `error` event whose code is
`conversation_already_has_active_response` emits no notification and
leaves the state unchanged (so any run of such events, e.g. three in a
row, emits nothing); an `error` event with any other code emits exactly
one server-error notification and also changes no state. -/
theorem claim7_active_response_error_suppressed (c : RealtimeClient)
    (now : ℚ) (code : Option String) (ts : List ℚ)
    (hc : code ≠ some "conversation_already_has_active_response") :
    (receiverStep c now
        (Event.errorEvent (some "conversation_already_has_active_response")) =
      (c, [])) ∧
    (receiverRun c (ts.map fun t =>
        (t, Event.errorEvent
          (some "conversation_already_has_active_response"))) = (c, [])) ∧
    (receiverStep c now (Event.errorEvent code) =
      (c, [Output.serverError code])) := by
  refine ⟨by simp [receiverStep], ?_, by simp [receiverStep, hc]⟩
  induction ts with
  | nil => rfl
  | cons t rest ih => simp [receiverRun, receiverStep, ih]

/-- Witness for C7: three consecutive suppressed error events emit
nothing; a differently coded error emits one server-error notification. -/
theorem claim7_active_response_error_suppressed_witness :
    (receiverRun initClient ([1, 2, 3].map fun t =>
        (t, Event.errorEvent
          (some "conversation_already_has_active_response"))) =
      (initClient, [])) ∧
    (receiverStep initClient 1 (Event.errorEvent (some "rate_limit")) =
      (initClient, [Output.serverError (some "rate_limit")])) := by
  have h := claim7_active_response_error_suppressed initClient 1
    (some "rate_limit") [1, 2, 3] (by decide)
  exact ⟨h.2.1, h.2.2⟩

/-- Does the receive pipeline dispatch this event to the
`response.audio.delta` branch? -/
def isAudioDelta : Event → Bool
  | .audioDelta _ => true
  | _ => false

/-- Every receive-pipeline branch other than `response.audio.delta`
leaves the last-assistant-audio timestamp unchanged. -/
theorem receiverStep_preserves_audio_time (c : RealtimeClient) (t : ℚ)
    (e : Event) (h : isAudioDelta e = false) :
    (receiverStep c t e).1.lastAssistantAudioTime =
      c.lastAssistantAudioTime := by
  cases e with
  | audioDelta d => simp [isAudioDelta] at h
  | audioDone => rfl
  | audioTranscriptDelta d =>
      simp only [receiverStep]
      split <;> rfl
  | audioTranscriptDone tOpt => rfl
  | textDelta d =>
      simp only [receiverStep]
      split <;> rfl
  | textDone tOpt => rfl
  | userTranscribed tOpt => rfl
  | errorEvent code =>
      simp only [receiverStep]
      split <;> rfl
  | unknown => rfl

/-- Running the receive pipeline over events none of which is an
audio-chunk event leaves the last-assistant-audio timestamp unchanged. -/
theorem receiverRun_preserves_audio_time (c : RealtimeClient)
    (evs : List (ℚ × Event)) (h : ∀ p ∈ evs, isAudioDelta p.2 = false) :
    (receiverRun c evs).1.lastAssistantAudioTime =
      c.lastAssistantAudioTime := by
  induction evs generalizing c with
  | nil => rfl
  | cons p rest ih =>
      obtain ⟨t, e⟩ := p
      have h1 : isAudioDelta e = false := h (t, e) (List.mem_cons_self _ _)
      have h2 : ∀ q ∈ rest, isAudioDelta q.2 = false := fun q hq =>
        h q (List.mem_cons_of_mem _ hq)
      show (receiverRun (receiverStep c t e).1 rest).1.lastAssistantAudioTime
        = c.lastAssistantAudioTime
      rw [ih _ h2, receiverStep_preserves_audio_time _ _ _ h1]

/-- With a zero last-assistant-audio timestamp the cooldown guard of the
send pipeline is inert: the frame is sent iff the mic is enabled and the
assistant-speaking flag is clear. -/
theorem audioSenderStep_zero_time (c : RealtimeClient) (t : ℚ) (f : String)
    (h : c.lastAssistantAudioTime = 0) :
    audioSenderStep c t f =
      if c.micEnabled && !c.assistantSpeaking then
        some (OutboundEvent.appendAudio f)
      else none := by
  cases hm : c.micEnabled <;> cases hs : c.assistantSpeaking <;>
    simp [audioSenderStep, hm, hs, h]

/-- C10: `_run_session` resets the last-assistant-audio timestamp to the
zero sentinel, and the cooldown guard only fires for a strictly positive
timestamp; hence before the first audio-chunk event of a session has been
processed, a microphone frame is suppressed only by the mic-disabled or
assistant-speaking rules, never by the cooldown rule. -/
theorem claim10_no_cooldown_before_first_audio_chunk (c : RealtimeClient)
    (evs : List (ℚ × Event)) (t : ℚ) (f : String)
    (h : ∀ p ∈ evs, isAudioDelta p.2 = false) :
    ((sessionStartReset c).lastAssistantAudioTime = 0) ∧
    ((receiverRun (sessionStartReset c) evs).1.lastAssistantAudioTime = 0) ∧
    (audioSenderStep (receiverRun (sessionStartReset c) evs).1 t f =
      if (receiverRun (sessionStartReset c) evs).1.micEnabled &&
          !(receiverRun (sessionStartReset c) evs).1.assistantSpeaking then
        some (OutboundEvent.appendAudio f)
      else none) := by
  have h1 : (receiverRun (sessionStartReset c) evs).1.lastAssistantAudioTime
      = 0 := by
    rw [receiverRun_preserves_audio_time _ _ h]; rfl
  exact ⟨rfl, h1, audioSenderStep_zero_time _ _ _ h1⟩

/-- Witness for C10: after a session reset and a non-audio event, a frame
is sent (mic on, assistant not speaking) with no cooldown suppression. -/
theorem claim10_no_cooldown_before_first_audio_chunk_witness :
    audioSenderStep
      (receiverRun (sessionStartReset initClient)
        [(1, Event.audioDone)]).1 5 "fr" =
      some (OutboundEvent.appendAudio "fr") := by
  have h := claim10_no_cooldown_before_first_audio_chunk initClient
    [(1, Event.audioDone)] 5 "fr" (by decide)
  exact h.2.2.trans (by decide)

/-- C2: processing a `response.audio.delta` event (speaker enabled,
non-empty payload) at monotonic time `now` records `now` as the
last-assistant-audio time; afterwards any send-pipeline iteration at a
time less than `now + 0.8` sends nothing (whatever the mic and speaking
flags), and an iteration at a time at least `now + 0.8` with the
assistant-speaking flag clear and the mic enabled sends the frame. -/
theorem claim2_cooldown_suppression (c : RealtimeClient) (now t : ℚ)
    (b : String) (hb : b ≠ "") (hsp : c.speakerEnabled = true)
    (hcd : c.assistantCooldownSec = 4/5) (hpos : 0 < now) :
    ((receiverStep c now (Event.audioDelta (some b))).1.lastAssistantAudioTime
      = now) ∧
    (∀ (m sp : Bool) (f : String), t - now < 4/5 →
      audioSenderStep
        { (receiverStep c now (Event.audioDelta (some b))).1 with
          micEnabled := m, assistantSpeaking := sp } t f = none) ∧
    (∀ f : String, 4/5 ≤ t - now →
      audioSenderStep
        { (receiverStep c now (Event.audioDelta (some b))).1 with
          micEnabled := true, assistantSpeaking := false } t f =
        some (OutboundEvent.appendAudio f)) := by
  have hstep : (receiverStep c now (Event.audioDelta (some b))).1 =
      { c with assistantSpeaking := true, lastAssistantAudioTime := now } := by
    simp [receiverStep, pyOr, hsp, hb]
  refine ⟨by rw [hstep], ?_, ?_⟩
  · intro m sp f hlt
    rw [hstep]
    cases m <;> cases sp <;> simp [audioSenderStep, hcd, hpos, hlt]
  · intro f hge
    rw [hstep]
    simp [audioSenderStep, hcd, hpos, not_lt.2 hge]

/-- Witness for C2 at concrete times: audio chunk at time 1, a suppressed
iteration at time 3/2 (elapsed 1/2 < 4/5) and a sending iteration at
time 2 (elapsed 1 ≥ 4/5). -/
theorem claim2_cooldown_suppression_witness :
    ((receiverStep initClient 1
        (Event.audioDelta (some "QUJD"))).1.lastAssistantAudioTime = 1) ∧
    (audioSenderStep
      { (receiverStep initClient 1 (Event.audioDelta (some "QUJD"))).1 with
        micEnabled := true, assistantSpeaking := false } (3/2) "fr" =
      none) ∧
    (audioSenderStep
      { (receiverStep initClient 1 (Event.audioDelta (some "QUJD"))).1 with
        micEnabled := true, assistantSpeaking := false } 2 "fr" =
      some (OutboundEvent.appendAudio "fr")) := by
  have hA := claim2_cooldown_suppression initClient 1 (3/2) "QUJD"
    (by decide) rfl rfl (by norm_num)
  have hB := claim2_cooldown_suppression initClient 1 2 "QUJD"
    (by decide) rfl rfl (by norm_num)
  exact ⟨hA.1, hA.2.1 true false "fr" (by norm_num),
    hB.2.2 "fr" (by norm_num)⟩

/-- C3 counterexample: on the normal exit path of a session whose
connection was opened, both the connection close and the audio-stream
release occur, but the audio release does NOT precede the connection
close — the `async with` context manager closes the WebSocket when its
block exits, and only afterwards does the `finally` block release the
audio streams. -/
theorem claim3_counterexample :
    (SessAction.closeConnection ∈
      runSessionTrace ⟨false, true, true, BodyEnd.normal⟩) ∧
    (SessAction.releaseInStream ∈
      runSessionTrace ⟨false, true, true, BodyEnd.normal⟩) ∧
    ¬ (List.indexOf SessAction.releaseInStream
        (runSessionTrace ⟨false, true, true, BodyEnd.normal⟩) <
       List.indexOf SessAction.closeConnection
        (runSessionTrace ⟨false, true, true, BodyEnd.normal⟩)) := by
  decide

/-- C3 (amended): on every exit path of `_run_session` in which the
Transport Connection was opened — whether the pipelines finished, raised,
or were stopped — the connection is closed and both audio streams are
released, with the connection close happening before the input-stream
release and the input-stream release before the output-stream release. -/
theorem claim3_close_then_release (b : BodyEnd) :
    (SessAction.closeConnection ∈ runSessionTrace ⟨false, true, true, b⟩) ∧
    (SessAction.releaseInStream ∈ runSessionTrace ⟨false, true, true, b⟩) ∧
    (SessAction.releaseOutStream ∈ runSessionTrace ⟨false, true, true, b⟩) ∧
    (List.indexOf SessAction.closeConnection
        (runSessionTrace ⟨false, true, true, b⟩) <
      List.indexOf SessAction.releaseInStream
        (runSessionTrace ⟨false, true, true, b⟩)) ∧
    (List.indexOf SessAction.releaseInStream
        (runSessionTrace ⟨false, true, true, b⟩) <
      List.indexOf SessAction.releaseOutStream
        (runSessionTrace ⟨false, true, true, b⟩)) := by
  cases b <;> decide

/-- The polling wait never observes the stop flag: it performs exactly
`fuel` sleeps of a tenth of a second. -/
theorem waitSleepsGo_neverStop (fuel i : Nat) :
    waitSleepsGo neverStop i fuel = List.replicate fuel (1/10 : ℚ) := by
  induction fuel generalizing i with
  | zero => rfl
  | succ n ih => simp [waitSleepsGo, neverStop, ih, List.replicate_succ]

/-- Every sleep performed by the polling wait lasts a tenth of a second. -/
theorem waitSleepsGo_sleeps_short (stopAt : Nat → Bool) (fuel : Nat) :
    ∀ i, ∀ x ∈ waitSleepsGo stopAt i fuel, x = (1/10 : ℚ) := by
  induction fuel with
  | zero => intro i x hx; simp [waitSleepsGo] at hx
  | succ n ih =>
      intro i x hx
      simp only [waitSleepsGo] at hx
      by_cases hs : stopAt i
      · rw [if_pos hs] at hx
        simp at hx
      · rw [if_neg hs] at hx
        rcases List.mem_cons.1 hx with h | h
        · exact h
        · exact ih (i + 1) x h

/-- If the stop flag reads set at poll `i + k`, the polling wait started
at poll `i` performs at most `k` sleeps: once the flag is set no further
sleep starts. -/
theorem waitSleepsGo_stops_promptly (stopAt : Nat → Bool) (fuel : Nat) :
    ∀ i k, stopAt (i + k) = true →
      (waitSleepsGo stopAt i fuel).length ≤ k := by
  induction fuel with
  | zero => intro i k _; simp [waitSleepsGo]
  | succ n ih =>
      intro i k hk
      by_cases hs : stopAt i
      · simp [waitSleepsGo, hs]
      · match k with
        | 0 => rw [Nat.add_zero] at hk; exact absurd hk (by simp [hs])
        | k + 1 =>
            have hrec := ih (i + 1) k (by
              have : i + 1 + k = i + (k + 1) := by omega
              rw [this]; exact hk)
            simp only [waitSleepsGo]
            rw [if_neg hs]
            simp only [List.length_cons]
            omega

/-- C9: the reconnection loop classifies the session outcome — a
peer-closed connection waits 3 seconds (30 polls), an unexpected failure
waits 5 seconds (50 polls), a clean end waits 0.3 seconds — and the long
waits are made of 0.1-second sleeps with the stop flag polled between
them, so if the flag reads set at poll `k` at most `k` sleeps happen, and
a stop observed right after the session skips the wait entirely. -/
theorem claim9_backoff_classification (stopAt : Nat → Bool) (k : Nat)
    (hk : stopAt k = true) :
    ((reconnectBackoff SessionResult.closedByPeer false neverStop).sum = 3) ∧
    ((reconnectBackoff SessionResult.failed false neverStop).sum = 5) ∧
    (reconnectBackoff SessionResult.cleanEnd false neverStop =
      [(3/10 : ℚ)]) ∧
    (∀ x ∈ reconnectBackoff SessionResult.closedByPeer false stopAt,
      x = (1/10 : ℚ)) ∧
    (∀ x ∈ reconnectBackoff SessionResult.failed false stopAt,
      x = (1/10 : ℚ)) ∧
    ((reconnectBackoff SessionResult.closedByPeer false stopAt).length ≤ k) ∧
    ((reconnectBackoff SessionResult.failed false stopAt).length ≤ k) ∧
    (∀ r, reconnectBackoff r true stopAt = []) := by
  have hsum : ∀ n : Nat, (waitSleeps n neverStop).sum = (n : ℚ) / 10 := by
    intro n
    rw [waitSleeps, waitSleepsGo_neverStop, List.sum_replicate, nsmul_eq_mul]
    ring
  refine ⟨?_, ?_, rfl, ?_, ?_, ?_, ?_, ?_⟩
  · show (waitSleeps 30 neverStop).sum = 3
    rw [hsum]; norm_num
  · show (waitSleeps 50 neverStop).sum = 5
    rw [hsum]; norm_num
  · exact waitSleepsGo_sleeps_short stopAt 30 0
  · exact waitSleepsGo_sleeps_short stopAt 50 0
  · exact waitSleepsGo_stops_promptly stopAt 30 0 k (by rwa [Nat.zero_add])
  · exact waitSleepsGo_stops_promptly stopAt 50 0 k (by rwa [Nat.zero_add])
  · intro r; cases r <;> rfl

/-- Witness for C9 with the stop flag set from the first poll: no sleeps
at all are performed in either long wait. -/
theorem claim9_backoff_classification_witness :
    ((reconnectBackoff SessionResult.closedByPeer false neverStop).sum = 3) ∧
    ((reconnectBackoff SessionResult.failed false neverStop).sum = 5) ∧
    ((reconnectBackoff SessionResult.closedByPeer false
        (fun _ => true)).length ≤ 0) ∧
    (reconnectBackoff SessionResult.failed true (fun _ => true) = []) := by
  have h := claim9_backoff_classification (fun _ => true) 0 rfl
  exact ⟨h.1, h.2.1, h.2.2.2.2.2.1, h.2.2.2.2.2.2.2 SessionResult.failed⟩

/-- Concatenation of a list of text fragments, in order. -/
def concatFrags : List String → String
  | [] => ""
  | f :: r => f ++ concatFrags r

/-- The receive pipeline over a concatenation of event lists is the
pipeline over the first list followed by the pipeline over the second,
with the outputs concatenated. -/
theorem receiverRun_append (c : RealtimeClient) (l1 l2 : List (ℚ × Event)) :
    receiverRun c (l1 ++ l2) =
      ((receiverRun (receiverRun c l1).1 l2).1,
       (receiverRun c l1).2 ++ (receiverRun (receiverRun c l1).1 l2).2) := by
  induction l1 generalizing c with
  | nil => rfl
  | cons p rest ih =>
      obtain ⟨t, e⟩ := p
      simp only [List.cons_append, receiverRun, List.append_eq]
      rw [ih]
      simp [List.append_assoc]

/-- Feeding a list of `response.text.delta` events appends the
concatenation of their fragments to the text-channel buffer and emits
nothing. -/
theorem receiverRun_textDeltas (c : RealtimeClient)
    (ds : List (ℚ × String)) :
    receiverRun c (ds.map fun p => (p.1, Event.textDelta (some p.2))) =
      ({ c with assistantTextBuffer :=
          c.assistantTextBuffer ++ concatFrags (ds.map Prod.snd) }, []) := by
  induction ds generalizing c with
  | nil =>
      simp only [List.map_nil, receiverRun, concatFrags, String.append_empty]
  | cons p rest ih =>
      obtain ⟨t, f⟩ := p
      simp only [List.map_cons, receiverRun]
      by_cases hf : f = ""
      · have hstep : receiverStep c t (Event.textDelta (some f)) =
            (c, []) := by
          simp [receiverStep, pyOr, hf]
        rw [hstep, ih]
        subst hf
        simp [concatFrags,
          show ∀ s : String, "" ++ s = s from fun _ => rfl]
      · have hstep : receiverStep c t (Event.textDelta (some f)) =
            ({ c with assistantTextBuffer :=
                c.assistantTextBuffer ++ f }, []) := by
          simp [receiverStep, pyOr, hf]
        rw [hstep, ih]
        simp [concatFrags, String.append_assoc]

/-- C5 counterexample: two `response.text.delta` events whose fragments
are both empty followed by `response.text.done` with no final text field
emit zero completed-message notifications, not one notification carrying
the (empty) concatenation of the fragments. -/
theorem claim5_counterexample :
    ((receiverRun (sessionStartReset initClient)
        [(1, Event.textDelta (some "")), (2, Event.textDelta (some "")),
         (3, Event.textDone none)]).2 = []) ∧
    (([] : List Output) ≠ [Output.eventText ("" ++ "")]) := by
  exact ⟨rfl, by decide⟩

/-- C5 (amended): for delta fragments whose concatenation is non-empty,
starting from an empty text-channel buffer, the deltas followed by a
`response.text.done` event with no final text field emit exactly one
completed-message notification carrying the in-order concatenation of
the fragments, and both buffers are empty immediately afterwards; when
all fragments are empty, no notification is emitted. -/
theorem claim5_text_deltas_flushed_once (c : RealtimeClient)
    (ds : List (ℚ × String)) (tEnd : ℚ)
    (hbuf : c.assistantTextBuffer = "")
    (hne : concatFrags (ds.map Prod.snd) ≠ "") :
    receiverRun c ((ds.map fun p => (p.1, Event.textDelta (some p.2))) ++
        [(tEnd, Event.textDone none)]) =
      ({ c with assistantTextBuffer := "", assistantAudioBuffer := "" },
       [Output.eventText (concatFrags (ds.map Prod.snd))]) := by
  rw [receiverRun_append, receiverRun_textDeltas]
  rw [hbuf]
  have hj : ("" : String) ++ concatFrags (ds.map Prod.snd) =
      concatFrags (ds.map Prod.snd) := rfl
  rw [hj]
  simp [receiverRun, receiverStep, pyOr, hne]

/-- Witness for C5: the spec scenario with fragments "Hel" then "lo" and
a final-text-free done event yields exactly the notification "Hello". -/
theorem claim5_text_deltas_flushed_once_witness :
    (receiverRun (sessionStartReset initClient)
        [(1, Event.textDelta (some "Hel")), (2, Event.textDelta (some "lo")),
         (3, Event.textDone none)]).2 = [Output.eventText "Hello"] := by
  have h := claim5_text_deltas_flushed_once (sessionStartReset initClient)
    [(1, "Hel"), (2, "lo")] 3 rfl (by decide)
  simp only [List.map_cons, List.map_nil, List.cons_append,
    List.nil_append] at h
  rw [congrArg Prod.snd h]
  decide

/-- C6 counterexample: with both buffers empty, a
`response.audio_transcript.done` event with no transcript field emits no
notification (the claim predicts one carrying the empty buffer); and with
an empty text buffer, a present-but-empty transcript field is ignored in
favour of the accumulated audio buffer (the claim predicts the event's
own field is used when present). -/
theorem claim6_counterexample :
    ((receiverStep (sessionStartReset initClient) 1
        (Event.audioTranscriptDone none)).2 = []) ∧
    ((receiverStep { sessionStartReset initClient with
          assistantAudioBuffer := "hi" } 1
        (Event.audioTranscriptDone (some ""))).2 =
      [Output.eventText "hi"]) ∧
    (([] : List Output) ≠ [Output.eventText ""]) ∧
    ([Output.eventText "hi"] ≠ [Output.eventText ""]) := by
  exact ⟨rfl, rfl, by decide, by decide⟩

/-- C6 (amended): on `response.audio_transcript.done`, if the
text-channel buffer is non-empty no notification is emitted; if it is
empty, the flushed text is the event's transcript field when that field
is non-empty, otherwise the accumulated audio-transcript buffer, and a
notification is emitted exactly when that text is non-empty; in every
case both buffers are empty immediately afterwards. -/
theorem claim6_transcript_done_flush (c : RealtimeClient) (now : ℚ)
    (t : Option String) :
    ((receiverStep c now
        (Event.audioTranscriptDone t)).1.assistantTextBuffer = "") ∧
    ((receiverStep c now
        (Event.audioTranscriptDone t)).1.assistantAudioBuffer = "") ∧
    (c.assistantTextBuffer ≠ "" →
      (receiverStep c now (Event.audioTranscriptDone t)).2 = []) ∧
    (c.assistantTextBuffer = "" →
      (receiverStep c now (Event.audioTranscriptDone t)).2 =
        if pyOr t c.assistantAudioBuffer = "" then []
        else [Output.eventText (pyOr t c.assistantAudioBuffer)]) := by
  refine ⟨rfl, rfl, ?_, ?_⟩
  · intro h
    simp [receiverStep, h]
  · intro h
    simp [receiverStep, h]

/-- Witness for C6: an empty-buffer state with an absent transcript field
flushes the audio buffer; a non-empty text buffer suppresses the flush;
both buffers are reset. -/
theorem claim6_transcript_done_flush_witness :
    ((receiverStep { initClient with assistantAudioBuffer := "hi" } 1
        (Event.audioTranscriptDone none)).2 = [Output.eventText "hi"]) ∧
    ((receiverStep { initClient with assistantTextBuffer := "tx" } 1
        (Event.audioTranscriptDone (some "s"))).2 = []) ∧
    ((receiverStep { initClient with assistantTextBuffer := "tx" } 1
        (Event.audioTranscriptDone (some "s"))).1.assistantTextBuffer =
      "") := by
  refine ⟨?_, ?_, ?_⟩
  · have h := claim6_transcript_done_flush
      { initClient with assistantAudioBuffer := "hi" } 1 none
    rw [h.2.2.2 rfl]
    decide
  · have h := claim6_transcript_done_flush
      { initClient with assistantTextBuffer := "tx" } 1 (some "s")
    exact h.2.2.1 (by decide)
  · exact (claim6_transcript_done_flush
      { initClient with assistantTextBuffer := "tx" } 1 (some "s")).1

end Cuby
